import Mathlib

/-!
Shallow embedding of the game-simulation core of `flappy_bird.py`
(Config, Bird, Wall, WallPair, Game) and proofs about it.

Floats of the source are modelled as exact rationals (`Rat`); pygame
`Rect` fields are integers, and assigning a float to one truncates
toward zero (the C cast), modelled by `pyint`.  The random draw
`random.randint(min_height, max_height)` in `WallPair.__init__` is
injected as an explicit argument `r`, so every definition is
deterministic and executable.
-/

/-- Truncation toward zero: Python's `int()` / the C cast pygame applies when
a float is assigned to an integer `Rect` field.  `Int.div` truncates toward
zero, and `q.num / q.den` is the exact value of `q`. -/
def pyint (q : Rat) : Int := q.num.tdiv q.den

/-- pygame `Rect`: integer position `(x, y)` (top-left corner) and size. -/
structure Rect where
  x : Int
  y : Int
  w : Int
  h : Int
deriving DecidableEq, Repr

def Rect.left (r : Rect) : Int := r.x

def Rect.top (r : Rect) : Int := r.y

def Rect.right (r : Rect) : Int := r.x + r.w

def Rect.bottom (r : Rect) : Int := r.y + r.h

/-- pygame `Rect.colliderect`: strict axis-aligned overlap test. -/
def Rect.colliderect (a b : Rect) : Bool :=
  decide (a.x < b.x + b.w) && decide (b.x < a.x + a.w) &&
  decide (a.y < b.y + b.h) && decide (b.y < a.y + a.h)

/-- A configuration group (e.g. `bird_settings`): a JSON object of numeric
values, modelled as an association list. -/
abbrev CfgGroup := List (String × Rat)

/-- Python `dict.get(key, default)` on a configuration group. -/
def dictGet (g : CfgGroup) (k : String) (d : Rat) : Rat :=
  ((g.find? (fun p => p.1 == k)).map (fun p => p.2)).getD d

/-- The parsed configuration data: a JSON object of groups. -/
structure Config where
  data : List (String × CfgGroup)
deriving DecidableEq, Repr

/-- `Config.get(key)`: `self.data.get(key, {})`. -/
def Config.get (c : Config) (k : String) : CfgGroup :=
  ((c.data.find? (fun p => p.1 == k)).map (fun p => p.2)).getD []

/-- The configuration file as seen by `Config.load_config`: absent, present
but not valid JSON, or present with parsed contents. -/
inductive ConfigSource where
  | missing
  | malformed
  | valid (data : List (String × CfgGroup))
deriving DecidableEq

/-- `Config.load_config`: `open` + `json.load` inside
`try ... except FileNotFoundError: return {}`.  An absent file is caught and
yields the empty dict; a file that is not valid JSON makes `json.load` raise
`json.JSONDecodeError`, which is not caught and propagates (modelled as
`Except.error`). -/
def Config.load_config : ConfigSource → Except String (List (String × CfgGroup))
  | .missing => .ok []
  | .malformed => .error "JSONDecodeError"
  | .valid d => .ok d

/-- The boundary reported by `Bird.check_bounds` (the strings `'top'` /
`'bottom'` of the source). -/
inductive BoundsHit where
  | top
  | bottom
deriving DecidableEq, Repr

/-- `Bird`: position `(x, y)`, per-tick physics parameters, vertical speed,
and the pygame rect used for collision tests. -/
structure Bird where
  x : Rat
  y : Rat
  gravity : Rat
  jump_strength : Rat
  width : Int
  height : Int
  speed_y : Rat
  rect : Rect
deriving DecidableEq, Repr

/-- `Bird.__init__(x, y, config)`: reads `bird_settings`, sets `speed_y = 0`
and places the rect with `(x, y)` as its center
(`self.image.get_rect(center=(x, y))`; pygame computes the top-left corner
with integer halving). -/
def Bird.init (x y : Rat) (config : Config) : Bird :=
  let bird_config := config.get "bird_settings"
  let gravity := dictGet bird_config "gravity" 0.4
  let jump_strength := dictGet bird_config "jump_strength" (-6)
  let width := pyint (dictGet bird_config "width" 60)
  let height := pyint (dictGet bird_config "height" 35)
  { x := x, y := y, gravity := gravity, jump_strength := jump_strength,
    width := width, height := height, speed_y := 0,
    rect := { x := pyint x - width.tdiv 2, y := pyint y - height.tdiv 2,
              w := width, h := height } }

/-- `Bird.update`: `speed_y += gravity; y += speed_y; rect.y = y`. -/
def Bird.update (b : Bird) : Bird :=
  let speed_y := b.speed_y + b.gravity
  let y := b.y + speed_y
  { b with speed_y := speed_y, y := y, rect := { b.rect with y := pyint y } }

/-- `Bird.jump`: `speed_y = jump_strength`. -/
def Bird.jump (b : Bird) : Bird :=
  { b with speed_y := b.jump_strength }

/-- `Bird.check_bounds(screen_height)`: at the top edge clamp to 0, zero the
speed and report `'top'`; at the bottom edge clamp so the rect bottom sits at
`screen_height` (the speed is NOT reset there) and report `'bottom'`;
otherwise report nothing. -/
def Bird.check_bounds (b : Bird) (screen_height : Int) : Bird × Option BoundsHit :=
  if b.rect.top ≤ 0 then
    ({ b with rect := { b.rect with y := 0 }, y := 0, speed_y := 0 }, some .top)
  else if screen_height ≤ b.rect.bottom then
    ({ b with rect := { b.rect with y := screen_height - b.rect.h },
              y := ((screen_height - b.rect.h : Int) : Rat) }, some .bottom)
  else (b, none)

/-- `Wall`: a single scrolling barrier. -/
structure Wall where
  x : Rat
  y : Rat
  speed : Rat
  rect : Rect
  passed : Bool
  flip : Bool
deriving DecidableEq, Repr

/-- `Wall.__init__(x, y, config, flip)`: reads `wall_settings`; a flipped
(top) wall anchors its rect by `bottomleft = (x, y)`, a bottom wall by
`topleft = (x, y)`. -/
def Wall.init (x y : Rat) (config : Config) (flip : Bool) : Wall :=
  let wall_config := config.get "wall_settings"
  let speed := dictGet wall_config "speed" 2
  let width := pyint (dictGet wall_config "width" 100)
  let height := pyint (dictGet wall_config "height" 500)
  let rect : Rect :=
    if flip then { x := pyint x, y := pyint y - height, w := width, h := height }
    else { x := pyint x, y := pyint y, w := width, h := height }
  { x := x, y := y, speed := speed, rect := rect, passed := false, flip := flip }

/-- `Wall.update`: `x -= speed; rect.x = x`. -/
def Wall.update (w : Wall) : Wall :=
  let x := w.x - w.speed
  { w with x := x, rect := { w.rect with x := pyint x } }

/-- `Wall.is_offscreen`: `rect.right < 0`. -/
def Wall.is_offscreen (w : Wall) : Bool := decide (w.rect.right < 0)

/-- `Wall.check_collision(bird_rect)`: `rect.colliderect(bird_rect)`. -/
def Wall.check_collision (w : Wall) (bird_rect : Rect) : Bool :=
  w.rect.colliderect bird_rect

/-- `Wall.check_pass(bird_rect)`: fires (once) when not yet passed and the
wall's right edge is strictly left of the bird's left edge; sets `passed`. -/
def Wall.check_pass (w : Wall) (bird_rect : Rect) : Wall × Bool :=
  if w.passed = false ∧ w.rect.right < bird_rect.left then
    ({ w with passed := true }, true)
  else (w, false)

/-- `WallPair`: a top and a bottom wall sharing one gap, plus the pair-level
`scored` flag.  `r` is the value drawn by
`random.randint(min_height, max_height)`. -/
structure WallPair where
  gap_height : Rat
  min_height : Rat
  max_height : Rat
  wall_height : Int
  screen_height : Int
  top_wall : Wall
  bottom_wall : Wall
  scored : Bool
deriving DecidableEq, Repr

/-- `WallPair.__init__(x, screen_height, config)` with the random draw
`r = random.randint(min_height, max_height)` made explicit: the top wall is
anchored so its bottom edge sits at `wall_height`, the bottom wall at
`wall_height + gap_height`. -/
def WallPair.init (x : Rat) (screen_height : Int) (config : Config) (r : Int) : WallPair :=
  let wall_config := config.get "wall_settings"
  let gap_height := dictGet wall_config "gap_height" 200
  let min_height := dictGet wall_config "min_height" 100
  let max_height := dictGet wall_config "max_height" 400
  let wall_height := r
  { gap_height := gap_height, min_height := min_height, max_height := max_height,
    wall_height := wall_height, screen_height := screen_height,
    top_wall := Wall.init x (wall_height : Rat) config true,
    bottom_wall := Wall.init x ((wall_height : Rat) + gap_height) config false,
    scored := false }

/-- `WallPair.update`: ticks both walls. -/
def WallPair.update (p : WallPair) : WallPair :=
  { p with top_wall := p.top_wall.update, bottom_wall := p.bottom_wall.update }

/-- `WallPair.check_collisions(bird_rect)`: either wall collides. -/
def WallPair.check_collisions (p : WallPair) (bird_rect : Rect) : Bool :=
  p.top_wall.check_collision bird_rect || p.bottom_wall.check_collision bird_rect

/-- `WallPair.check_pass(bird_rect)`: if not yet `scored`, try the top then
the bottom wall (`if not wall.passed and wall.check_pass(...)`); the first
wall that fires sets `scored` and the call returns true. -/
def WallPair.check_pass (p : WallPair) (bird_rect : Rect) : WallPair × Bool :=
  if p.scored then (p, false)
  else if p.top_wall.passed = false ∧ (p.top_wall.check_pass bird_rect).2 = true then
    ({ p with top_wall := (p.top_wall.check_pass bird_rect).1, scored := true }, true)
  else if p.bottom_wall.passed = false ∧ (p.bottom_wall.check_pass bird_rect).2 = true then
    ({ p with bottom_wall := (p.bottom_wall.check_pass bird_rect).1, scored := true }, true)
  else (p, false)

/-- `WallPair.is_offscreen`: both walls off-screen. -/
def WallPair.is_offscreen (p : WallPair) : Bool :=
  p.top_wall.is_offscreen && p.bottom_wall.is_offscreen

/-- `Game` state: window size, the bird, the live wall pairs in spawn order,
`game_status` (`'game'` or `'menu'`), the score, and the configuration. -/
structure Game where
  width : Int
  height : Int
  bird : Bird
  wall_pairs : List WallPair
  game_status : String
  score : Int
  config : Config
deriving DecidableEq, Repr

/-- One iteration of the wall loop in `Game.update_game_logic`: tick the
pair, set `game_status` to `'menu'` on collision, count a firing pass, and
keep the pair unless it is off-screen.  The accumulator carries
(status, score, surviving pairs). -/
def wallStep (bird_rect : Rect) (acc : String × Int × List WallPair) (wp : WallPair) :
    String × Int × List WallPair :=
  let wp1 := wp.update
  let st1 := if wp1.check_collisions bird_rect then "menu" else acc.1
  let pr := wp1.check_pass bird_rect
  let sc1 := if pr.2 then acc.2.1 + 1 else acc.2.1
  let kept := if pr.1.is_offscreen then acc.2.2 else acc.2.2 ++ [pr.1]
  (st1, sc1, kept)

/-- `Game.update_game_logic`: only while `'game'` — update the bird, check
its bounds (`'bottom'` sets `'menu'`, with no early return), then run the
wall loop over every pair (collision sets `'menu'` but the loop continues;
passes still score; off-screen pairs are still removed). -/
def Game.update_game_logic (g : Game) : Game :=
  if g.game_status = "game" then
    let b1 := g.bird.update
    let br := b1.check_bounds g.height
    let st0 := if br.2 = some BoundsHit.bottom then "menu" else "game"
    let res := g.wall_pairs.foldl (wallStep br.1.rect) (st0, g.score, [])
    { g with bird := br.1, game_status := res.1, score := res.2.1,
             wall_pairs := res.2.2 }
  else g

/-- `Game.restart_game`: back to `'game'`, fresh bird at the configured
start position, no walls, score 0. -/
def Game.restart_game (g : Game) : Game :=
  let bird_config := g.config.get "bird_settings"
  let start_x := dictGet bird_config "start_x" 100
  let start_y := dictGet bird_config "start_y" ((g.height.fdiv 2 : Int) : Rat)
  { g with game_status := "game", bird := Bird.init start_x start_y g.config,
           wall_pairs := [], score := 0 }

/-- The `K_SPACE` branch of `Game.handle_events`: jump while playing,
restart from the menu. -/
def Game.handle_space (g : Game) : Game :=
  if g.game_status = "game" then { g with bird := g.bird.jump }
  else if g.game_status = "menu" then g.restart_game
  else g

/-- The `spawn_wall_event` branch of `Game.handle_events` (random draw `r`
made explicit): while playing, append a fresh pair at the right edge. -/
def Game.handle_spawn (g : Game) (r : Int) : Game :=
  if g.game_status = "game" then
    { g with wall_pairs := g.wall_pairs ++ [WallPair.init (g.width : Rat) g.height g.config r] }
  else g

/-- Run `Wall.check_pass` over a sequence of bird rects (one call per tick of
the wall's lifetime), threading the wall's state and counting `true` results. -/
def Wall.runPasses (w : Wall) (rects : List Rect) : Wall × Nat :=
  match rects with
  | [] => (w, 0)
  | r :: rs =>
    let pr := w.check_pass r
    let rest := pr.1.runPasses rs
    (rest.1, (if pr.2 then 1 else 0) + rest.2)

/-- Run `WallPair.check_pass` over a sequence of bird rects, threading the
pair's state and counting `true` results. -/
def WallPair.runPasses (p : WallPair) (rects : List Rect) : WallPair × Nat :=
  match rects with
  | [] => (p, 0)
  | r :: rs =>
    let pr := p.check_pass r
    let rest := pr.1.runPasses rs
    (rest.1, (if pr.2 then 1 else 0) + rest.2)

/-- What one pass of the wall loop does to a single pair: tick it, then run
the pair's pass check. -/
def pairTicked (bird_rect : Rect) (wp : WallPair) : WallPair × Bool :=
  (wp.update).check_pass bird_rect

/-- How many pairs of the list fire their pass check during one tick. -/
def fireCount (bird_rect : Rect) (L : List WallPair) : Nat :=
  (L.filter (fun wp => (pairTicked bird_rect wp).2)).length

/-- The pairs surviving one tick of the wall loop: each pair ticked and
pass-checked, off-screen pairs dropped. -/
def survivors (bird_rect : Rect) (L : List WallPair) : List WallPair :=
  (L.map (fun wp => (pairTicked bird_rect wp).1)).filter (fun p => !p.is_offscreen)

/-- Whether any pair of the list collides with the bird during one tick. -/
def anyCollision (bird_rect : Rect) (L : List WallPair) : Bool :=
  L.any (fun wp => (wp.update).check_collisions bird_rect)

/-- Number of live pairs that have not yet scored. -/
def unscoredCount (L : List WallPair) : Nat :=
  (L.filter (fun p => !p.scored)).length

/-- Score plus the number of live pairs still able to score: an upper bound
on any future score reachable by ticking alone. -/
def Game.scorePotential (g : Game) : Int :=
  g.score + (unscoredCount g.wall_pairs : Int)

/-- The default configuration: an absent file yields `{}`, so every lookup
falls back to its hardcoded default. -/
def emptyConfig : Config := ⟨[]⟩

/-- A bird (default parameters) falling just above the bottom of a
500-pixel screen: its next gravity tick pushes the rect bottom past 500. -/
def birdFalling : Bird :=
  { x := 100, y := 480, gravity := 0.4, jump_strength := -6, width := 60,
    height := 35, speed_y := 0, rect := { x := 70, y := 480, w := 60, h := 35 } }

/-- A bird already past the bottom bound, still carrying downward speed 5. -/
def birdAtBottom : Bird :=
  { x := 100, y := 480, gravity := 0.4, jump_strength := -6, width := 60,
    height := 35, speed_y := 5, rect := { x := 70, y := 480, w := 60, h := 35 } }

/-- A bird resting at the top edge with upward speed, for the top clamp. -/
def birdAtTop : Bird :=
  { x := 100, y := 0, gravity := 0.4, jump_strength := -6, width := 60,
    height := 35, speed_y := -3, rect := { x := 70, y := 0, w := 60, h := 35 } }

/-- A default-parameter wall pair at `x = -30`, one tick away from its walls
passing a bird whose rect left edge is 70 (the walls' right edge drops from
70 to 68 on the next tick). -/
def pairNearPass : WallPair :=
  { gap_height := 200, min_height := 100, max_height := 400, wall_height := 100,
    screen_height := 500,
    top_wall := { x := -30, y := 100, speed := 2,
                  rect := { x := -30, y := -400, w := 100, h := 500 },
                  passed := false, flip := true },
    bottom_wall := { x := -30, y := 300, speed := 2,
                     rect := { x := -30, y := 300, w := 100, h := 500 },
                     passed := false, flip := false },
    scored := false }

/-- A game state in which, on the same tick, the bird touches the bottom
(ending the game) and `pairNearPass` first satisfies the pass condition. -/
def gameEndTick : Game :=
  { width := 600, height := 500, bird := birdFalling, wall_pairs := [pairNearPass],
    game_status := "game", score := 0, config := emptyConfig }

/-- A configuration whose `gap_height` (500) lies outside
`[min_height, max_height] = [100, 400]`. -/
def bigGapConfig : Config :=
  ⟨[("wall_settings", [("gap_height", 500), ("min_height", 100), ("max_height", 400)])]⟩

/-- The wall of the off-screen scenario: spawned at `x = 600` with default
speed 2 and width 100. -/
def wall600 : Wall := Wall.init 600 0 emptyConfig false

/-- A game sitting on the game-over menu. -/
def gameOverMenu : Game :=
  { width := 600, height := 500, bird := birdAtBottom, wall_pairs := [pairNearPass],
    game_status := "menu", score := 7, config := emptyConfig }

theorem pyint_intCast (n : Int) : pyint (n : Rat) = n := by
  simp [pyint, Rat.num_intCast, Rat.den_intCast, Int.tdiv_one]

theorem Wall.check_pass_passed (w : Wall) (r : Rect) (h : w.passed = true) :
    w.check_pass r = (w, false) := by
  simp [Wall.check_pass, h]

theorem Wall.check_pass_snd (w : Wall) (r : Rect) :
    (w.check_pass r).2 = true ↔ (w.passed = false ∧ w.rect.right < r.left) := by
  unfold Wall.check_pass
  split <;> simp_all

theorem Wall.check_pass_fst_passed (w : Wall) (r : Rect) :
    (w.check_pass r).1.passed = (w.passed || (w.check_pass r).2) := by
  unfold Wall.check_pass
  split <;> simp_all

theorem wall_check_pass_no_fire (w : Wall) (r : Rect) (h : (w.check_pass r).2 = false) :
    (w.check_pass r).1 = w := by
  unfold Wall.check_pass at h ⊢
  by_cases hc : (w.passed = false ∧ w.rect.right < r.left)
  · rw [if_pos hc] at h
    simp at h
  · rw [if_neg hc]

theorem Wall.runPasses_passed (w : Wall) (rects : List Rect) (h : w.passed = true) :
    (w.runPasses rects).2 = 0 := by
  induction rects generalizing w with
  | nil => rfl
  | cons r rs ih =>
    simp only [Wall.runPasses, Wall.check_pass_passed w r h]
    simpa using ih w h

theorem wall_runPasses_le_one (w : Wall) (rects : List Rect) :
    (w.runPasses rects).2 ≤ 1 := by
  induction rects generalizing w with
  | nil => simp [Wall.runPasses]
  | cons r rs ih =>
    simp only [Wall.runPasses]
    by_cases h : (w.check_pass r).2 = true
    · have hp : (w.check_pass r).1.passed = true := by
        rw [Wall.check_pass_fst_passed, h]
        simp
      simp [h, Wall.runPasses_passed _ rs hp]
    · simp only [Bool.not_eq_true] at h
      simpa [h] using ih (w.check_pass r).1

theorem WallPair.check_pass_scored (p : WallPair) (r : Rect) (h : p.scored = true) :
    p.check_pass r = (p, false) := by
  simp [WallPair.check_pass, h]

theorem WallPair.check_pass_fire_not_scored (p : WallPair) (r : Rect)
    (h : (p.check_pass r).2 = true) : p.scored = false := by
  by_contra hc
  simp only [Bool.not_eq_false] at hc
  rw [WallPair.check_pass_scored p r hc] at h
  simp at h

theorem WallPair.check_pass_fst_scored (p : WallPair) (r : Rect) :
    (p.check_pass r).1.scored = (p.scored || (p.check_pass r).2) := by
  unfold WallPair.check_pass
  split <;> simp_all
  split <;> simp_all
  split <;> simp_all

theorem pair_check_pass_no_fire (p : WallPair) (r : Rect)
    (h : (p.check_pass r).2 = false) : (p.check_pass r).1 = p := by
  unfold WallPair.check_pass at h ⊢
  by_cases h0 : p.scored = true
  · rw [if_pos h0]
  · by_cases h1 : (p.top_wall.passed = false ∧ (p.top_wall.check_pass r).2 = true)
    · rw [if_neg h0, if_pos h1] at h
      simp at h
    · by_cases h2 : (p.bottom_wall.passed = false ∧ (p.bottom_wall.check_pass r).2 = true)
      · rw [if_neg h0, if_neg h1, if_pos h2] at h
        simp at h
      · rw [if_neg h0, if_neg h1, if_neg h2]

theorem WallPair.runPasses_scored (p : WallPair) (rects : List Rect) (h : p.scored = true) :
    (p.runPasses rects).2 = 0 := by
  induction rects generalizing p with
  | nil => rfl
  | cons r rs ih =>
    simp only [WallPair.runPasses, WallPair.check_pass_scored p r h]
    simpa using ih p h

theorem pair_runPasses_le_one (p : WallPair) (rects : List Rect) :
    (p.runPasses rects).2 ≤ 1 := by
  induction rects generalizing p with
  | nil => simp [WallPair.runPasses]
  | cons r rs ih =>
    simp only [WallPair.runPasses]
    by_cases h : (p.check_pass r).2 = true
    · have hs : (p.check_pass r).1.scored = true := by
        rw [WallPair.check_pass_fst_scored, h]
        simp
      simp [h, WallPair.runPasses_scored _ rs hs]
    · simp only [Bool.not_eq_true] at h
      simpa [h] using ih (p.check_pass r).1

theorem WallPair.update_scored (p : WallPair) : (p.update).scored = p.scored := rfl

theorem fireCount_cons (r : Rect) (hd : WallPair) (tl : List WallPair) :
    fireCount r (hd :: tl) =
      (if (pairTicked r hd).2 then 1 else 0) + fireCount r tl := by
  simp only [fireCount, List.filter_cons]
  split <;> simp [Nat.add_comm]

theorem survivors_cons (r : Rect) (hd : WallPair) (tl : List WallPair) :
    survivors r (hd :: tl) =
      (if (pairTicked r hd).1.is_offscreen then [] else [(pairTicked r hd).1]) ++
        survivors r tl := by
  simp only [survivors, List.map_cons, List.filter_cons]
  by_cases h : (pairTicked r hd).1.is_offscreen = true <;> simp [h]

theorem foldl_wallStep (r : Rect) (L : List WallPair) (st : String) (sc : Int)
    (ks : List WallPair) :
    L.foldl (wallStep r) (st, sc, ks) =
      (if anyCollision r L then "menu" else st,
       sc + (fireCount r L : Int),
       ks ++ survivors r L) := by
  induction L generalizing st sc ks with
  | nil => simp [anyCollision, fireCount, survivors]
  | cons hd tl ih =>
    rw [List.foldl_cons, wallStep, ih, fireCount_cons, survivors_cons]
    refine Prod.ext ?_ (Prod.ext ?_ ?_)
    · show (if anyCollision r tl then "menu"
            else if (hd.update).check_collisions r then "menu" else st) = _
      simp only [anyCollision, List.any_cons]
      by_cases h1 : (hd.update).check_collisions r = true <;>
        by_cases h2 : tl.any (fun wp => (wp.update).check_collisions r) = true <;>
        simp [h1, h2]
    · show ((if (pairTicked r hd).2 then sc + 1 else sc) + (fireCount r tl : Int)) = _
      by_cases h : (pairTicked r hd).2 = true <;> simp [h] <;> push_cast <;> ring
    · show (if (pairTicked r hd).1.is_offscreen then ks
            else ks ++ [(pairTicked r hd).1]) ++ survivors r tl = _
      by_cases h : (pairTicked r hd).1.is_offscreen = true <;> simp [h]

theorem update_game_logic_not_game (g : Game) (h : ¬ g.game_status = "game") :
    g.update_game_logic = g := by
  unfold Game.update_game_logic
  rw [if_neg h]

theorem update_game_logic_game (g : Game) (h : g.game_status = "game") :
    g.update_game_logic =
      { g with
        bird := ((g.bird.update).check_bounds g.height).1,
        game_status :=
          if anyCollision (((g.bird.update).check_bounds g.height).1.rect) g.wall_pairs
          then "menu"
          else if ((g.bird.update).check_bounds g.height).2 = some BoundsHit.bottom
               then "menu" else "game",
        score := g.score +
          (fireCount (((g.bird.update).check_bounds g.height).1.rect) g.wall_pairs : Int),
        wall_pairs :=
          survivors (((g.bird.update).check_bounds g.height).1.rect) g.wall_pairs } := by
  simp only [Game.update_game_logic]
  rw [if_pos h, foldl_wallStep]
  simp

theorem unscoredCount_nil : unscoredCount [] = 0 := rfl

theorem unscoredCount_cons (p : WallPair) (L : List WallPair) :
    unscoredCount (p :: L) = (if p.scored then 0 else 1) + unscoredCount L := by
  simp only [unscoredCount, List.filter_cons]
  by_cases h : p.scored = true <;> simp [h, Nat.add_comm]

theorem unscoredCount_append (a b : List WallPair) :
    unscoredCount (a ++ b) = unscoredCount a + unscoredCount b := by
  simp [unscoredCount, List.filter_append]

theorem fire_survivors_bound (r : Rect) (L : List WallPair) :
    fireCount r L + unscoredCount (survivors r L) ≤ unscoredCount L := by
  induction L with
  | nil => simp [fireCount, survivors, unscoredCount]
  | cons hd tl ih =>
    rw [fireCount_cons, survivors_cons, unscoredCount_cons, unscoredCount_append]
    by_cases hf : (pairTicked r hd).2 = true
    · have hs : (pairTicked r hd).1.scored = true := by
        unfold pairTicked at hf ⊢
        rw [WallPair.check_pass_fst_scored, hf]
        simp
      have hns : hd.scored = false := by
        have h2 := WallPair.check_pass_fire_not_scored (hd.update) r hf
        rwa [WallPair.update_scored] at h2
      by_cases ho : (pairTicked r hd).1.is_offscreen = true <;>
        simp [hf, ho, hs, hns, unscoredCount_cons, unscoredCount_nil] <;> omega
    · have he : (pairTicked r hd).1 = hd.update := by
        unfold pairTicked at hf ⊢
        exact pair_check_pass_no_fire (hd.update) r (by simpa using hf)
      have hsc : (pairTicked r hd).1.scored = hd.scored := by
        rw [he, WallPair.update_scored]
      by_cases ho : (pairTicked r hd).1.is_offscreen = true <;>
        by_cases hns : hd.scored = true <;>
        simp [hf, ho, hsc, hns, unscoredCount_cons, unscoredCount_nil] <;> omega

theorem scorePotential_tick (g : Game) :
    g.score ≤ g.update_game_logic.score ∧
    g.update_game_logic.scorePotential ≤ g.scorePotential := by
  by_cases h : g.game_status = "game"
  · have hg := update_game_logic_game g h
    have h1 : g.update_game_logic.score =
        g.score + (fireCount (((g.bird.update).check_bounds g.height).1.rect) g.wall_pairs : Int) := by
      rw [hg]
    have h2 : g.update_game_logic.wall_pairs =
        survivors (((g.bird.update).check_bounds g.height).1.rect) g.wall_pairs := by
      rw [hg]
    have hb := fire_survivors_bound (((g.bird.update).check_bounds g.height).1.rect)
      g.wall_pairs
    constructor
    · rw [h1]
      omega
    · simp only [Game.scorePotential, h1, h2]
      omega
  · rw [update_game_logic_not_game g h]
    exact ⟨le_refl _, le_refl _⟩

theorem Bird.update_gravity (b : Bird) : b.update.gravity = b.gravity := rfl

theorem Bird.iterate_gravity (b : Bird) (n : Nat) :
    (Bird.update^[n] b).gravity = b.gravity := by
  induction n with
  | zero => rfl
  | succ n ih => rw [Function.iterate_succ_apply', Bird.update_gravity, ih]

theorem Bird.iterate_speed (b : Bird) (n : Nat) :
    (Bird.update^[n] b).speed_y = b.speed_y + n * b.gravity := by
  induction n with
  | zero => simp
  | succ n ih =>
    rw [Function.iterate_succ_apply']
    show (Bird.update^[n] b).speed_y + (Bird.update^[n] b).gravity = _
    rw [ih, Bird.iterate_gravity]
    push_cast
    ring

theorem wall600_iterate (n : Nat) :
    Wall.update^[n] wall600 =
      { x := 600 - 2 * (n : Rat), y := 0, speed := 2,
        rect := { x := 600 - 2 * (n : Int), y := 0, w := 100, h := 500 },
        passed := false, flip := false } := by
  induction n with
  | zero =>
    simp only [Function.iterate_zero_apply]
    norm_num [wall600, Wall.init, emptyConfig, Config.get, dictGet, pyint]
  | succ n ih =>
    rw [Function.iterate_succ_apply', ih]
    simp only [Wall.update, Wall.mk.injEq, Rect.mk.injEq]
    have hx : (600 : Rat) - 2 * (n : Rat) - 2 = ((600 - 2 * ((n : Int) + 1) : Int) : Rat) := by
      push_cast
      ring
    refine ⟨?_, trivial, trivial, ⟨?_, trivial, trivial, trivial⟩, trivial, trivial⟩
    · push_cast
      ring
    · rw [hx, pyint_intCast]
      push_cast
      ring

/-- C1: the claim says that as soon as the state transitions to Ended during
a tick, all remaining processing of that tick is skipped.  Counterexample:
in `gameEndTick` the bird touches the bottom in step 1 (the state becomes
`'menu'`), yet in the same tick the single wall pair is still ticked (its
`x` moves from -30 to -32) and its pass still scores (+1). -/
theorem C1_counterexample :
    (gameEndTick.update_game_logic).game_status = "menu" ∧
    (gameEndTick.update_game_logic).score = gameEndTick.score + 1 ∧
    (gameEndTick.update_game_logic).wall_pairs.map (fun p => p.top_wall.x) = [-32] := by
  have h1 : Int.tdiv 2402 5 = 480 := by decide
  refine ⟨?_, ?_, ?_⟩ <;>
    norm_num [Game.update_game_logic, gameEndTick, birdFalling, pairNearPass,
      Bird.update, Bird.check_bounds, Rect.top, Rect.bottom, Rect.left, Rect.right,
      pyint, h1, wallStep, WallPair.update, Wall.update, WallPair.check_collisions,
      Wall.check_collision, Rect.colliderect, WallPair.check_pass, Wall.check_pass,
      WallPair.is_offscreen, Wall.is_offscreen]

/-- C1 (amended): a mid-tick transition to `'menu'` does not cut the tick
short.  While `'menu'`, `update_game_logic` is the identity; while `'game'`,
one tick always processes every pair — the score grows by the number of
pairs whose pass check fires, the surviving pairs are exactly the ticked,
pass-checked, non-off-screen pairs, and the status ends at `'menu'` exactly
when the bird touched the bottom or some pair collided — regardless of any
transition earlier in the same tick. -/
theorem C1_amended (g : Game) :
    (g.game_status ≠ "game" → g.update_game_logic = g) ∧
    (g.game_status = "game" →
      g.update_game_logic.score =
        g.score + (fireCount (((g.bird.update).check_bounds g.height).1.rect) g.wall_pairs : Int) ∧
      g.update_game_logic.wall_pairs =
        survivors (((g.bird.update).check_bounds g.height).1.rect) g.wall_pairs ∧
      (g.update_game_logic.game_status = "menu" ↔
        (((g.bird.update).check_bounds g.height).2 = some BoundsHit.bottom ∨
          anyCollision (((g.bird.update).check_bounds g.height).1.rect) g.wall_pairs = true))) := by
  constructor
  · exact fun h => update_game_logic_not_game g h
  · intro h
    rw [update_game_logic_game g h]
    refine ⟨rfl, rfl, ?_⟩
    by_cases hc : anyCollision (((g.bird.update).check_bounds g.height).1.rect) g.wall_pairs = true <;>
      by_cases hb : ((g.bird.update).check_bounds g.height).2 = some BoundsHit.bottom <;>
      simp [hc, hb]

/-- C1 (amended) witness: the no-op branch at `gameOverMenu` and the
full-processing branch at `gameEndTick`. -/
theorem C1_amended_witness :
    gameOverMenu.update_game_logic = gameOverMenu ∧
    gameEndTick.update_game_logic.score =
      gameEndTick.score +
        (fireCount (((gameEndTick.bird.update).check_bounds gameEndTick.height).1.rect)
          gameEndTick.wall_pairs : Int) :=
  ⟨(C1_amended gameOverMenu).1 (by decide),
   ((C1_amended gameEndTick).2 rfl).1⟩

/-- C2: the claim says `gap_height` is drawn uniformly at random in
`[min_height, max_height]` and always lies in that range.  Counterexample:
under `bigGapConfig` the pair's `gap_height` is the configured constant 500,
outside `[100, 400]`, and it does not depend on the random draw at all (the
same 500 results from draws 100 and 400). -/
theorem C2_counterexample :
    (WallPair.init 600 500 bigGapConfig 100).gap_height = 500 ∧
    (WallPair.init 600 500 bigGapConfig 100).min_height = 100 ∧
    (WallPair.init 600 500 bigGapConfig 100).max_height = 400 ∧
    ¬((WallPair.init 600 500 bigGapConfig 100).min_height ≤
        (WallPair.init 600 500 bigGapConfig 100).gap_height ∧
      (WallPair.init 600 500 bigGapConfig 100).gap_height ≤
        (WallPair.init 600 500 bigGapConfig 100).max_height) ∧
    (WallPair.init 600 500 bigGapConfig 100).gap_height =
      (WallPair.init 600 500 bigGapConfig 400).gap_height := by
  refine ⟨?_, ?_, ?_, ?_, ?_⟩ <;>
    norm_num [WallPair.init, bigGapConfig, Config.get, dictGet] <;>
    decide

/-- C2 (amended): what is drawn uniformly at random in
`[min_height, max_height]` is `wall_height`, the anchor of the shared gap;
`gap_height` itself comes from the configuration (default 200).  With the
default configuration, at creation the top wall's bottom edge sits at
`wall_height`, the bottom wall's top edge at `wall_height + gap_height`,
so `top.bottom_edge + gap == bottom.top_edge` holds. -/
theorem C2_amended (x : Rat) (r : Int) (h1 : 100 ≤ r) (h2 : r ≤ 400) :
    (WallPair.init x 500 emptyConfig r).wall_height = r ∧
    (100 ≤ (WallPair.init x 500 emptyConfig r).wall_height ∧
      (WallPair.init x 500 emptyConfig r).wall_height ≤ 400) ∧
    (WallPair.init x 500 emptyConfig r).gap_height = 200 ∧
    (WallPair.init x 500 emptyConfig r).top_wall.rect.bottom = r ∧
    (WallPair.init x 500 emptyConfig r).bottom_wall.rect.top = r + 200 ∧
    (WallPair.init x 500 emptyConfig r).top_wall.rect.bottom + 200 =
      (WallPair.init x 500 emptyConfig r).bottom_wall.rect.top := by
  have e1 : pyint ((r : Int) : Rat) = r := pyint_intCast r
  have e2 : pyint (((r : Int) : Rat) + 200) = r + 200 := by
    have hc : ((r : Int) : Rat) + 200 = (((r + 200 : Int)) : Rat) := by
      push_cast
      ring
    rw [hc, pyint_intCast]
  refine ⟨rfl, ⟨h1, h2⟩, ?_, ?_, ?_, ?_⟩ <;>
    norm_num [WallPair.init, Wall.init, emptyConfig, Config.get, dictGet,
      Rect.top, Rect.bottom, e1, e2] <;>
    omega

/-- C2 (amended) witness: the draw 250 at spawn x = 600. -/
theorem C2_amended_witness :
    (WallPair.init 600 500 emptyConfig 250).wall_height = 250 ∧
    (100 ≤ (WallPair.init 600 500 emptyConfig 250).wall_height ∧
      (WallPair.init 600 500 emptyConfig 250).wall_height ≤ 400) ∧
    (WallPair.init 600 500 emptyConfig 250).gap_height = 200 ∧
    (WallPair.init 600 500 emptyConfig 250).top_wall.rect.bottom = 250 ∧
    (WallPair.init 600 500 emptyConfig 250).bottom_wall.rect.top = 250 + 200 ∧
    (WallPair.init 600 500 emptyConfig 250).top_wall.rect.bottom + 200 =
      (WallPair.init 600 500 emptyConfig 250).bottom_wall.rect.top :=
  C2_amended 600 250 (by decide) (by decide)

/-- C3: the claim says every bounds clamp resets the velocity to 0.
Counterexample: `birdAtBottom` is clamped at the bottom
(`check_bounds` reports `'bottom'`) but its velocity stays 5. -/
theorem C3_counterexample :
    (birdAtBottom.check_bounds 500).2 = some BoundsHit.bottom ∧
    (birdAtBottom.check_bounds 500).1.speed_y = 5 ∧
    birdAtBottom.speed_y = 5 ∧ (5 : Rat) ≠ 0 := by
  refine ⟨?_, ?_, rfl, by norm_num⟩ <;>
    norm_num [Bird.check_bounds, birdAtBottom, Rect.top, Rect.bottom]

/-- C3 (amended): velocity accumulates gravity linearly over gravity ticks
(`speed_y` after n ticks is `speed_y + n * gravity`); the TOP clamp resets
the velocity to 0, but the BOTTOM clamp leaves it unchanged. -/
theorem C3_amended :
    (∀ (b : Bird) (n : Nat), (Bird.update^[n] b).speed_y = b.speed_y + n * b.gravity) ∧
    (∀ (b : Bird) (sh : Int), (b.check_bounds sh).2 = some BoundsHit.top →
      (b.check_bounds sh).1.speed_y = 0) ∧
    (∀ (b : Bird) (sh : Int), (b.check_bounds sh).2 = some BoundsHit.bottom →
      (b.check_bounds sh).1.speed_y = b.speed_y) := by
  refine ⟨Bird.iterate_speed, ?_, ?_⟩
  · intro b sh h
    unfold Bird.check_bounds at h ⊢
    by_cases h1 : b.rect.top ≤ 0
    · rw [if_pos h1]
    · rw [if_neg h1] at h ⊢
      by_cases h2 : sh ≤ b.rect.bottom
      · rw [if_pos h2] at h
        simp at h
      · rw [if_neg h2] at h
        simp at h
  · intro b sh h
    unfold Bird.check_bounds at h ⊢
    by_cases h1 : b.rect.top ≤ 0
    · rw [if_pos h1] at h
      simp at h
    · rw [if_neg h1] at h ⊢
      by_cases h2 : sh ≤ b.rect.bottom
      · rw [if_pos h2]
      · rw [if_neg h2] at h
        simp at h

/-- C3 (amended) witness: the top clamp at `birdAtTop` zeroes the speed; the
bottom clamp at `birdAtBottom` keeps speed 5. -/
theorem C3_witness :
    (birdAtTop.check_bounds 500).1.speed_y = 0 ∧
    (birdAtBottom.check_bounds 500).1.speed_y = birdAtBottom.speed_y :=
  ⟨C3_amended.2.1 birdAtTop 500 (by
      norm_num [Bird.check_bounds, birdAtTop, Rect.top, Rect.bottom]),
   C3_amended.2.2 birdAtBottom 500 (by
      norm_num [Bird.check_bounds, birdAtBottom, Rect.top, Rect.bottom])⟩

/-- C4: the claim says a missing OR malformed configuration source is
recovered by falling back to the empty configuration.  Counterexample: only
`FileNotFoundError` is caught; on a malformed file `json.load` raises
`json.JSONDecodeError`, which propagates out of `load_config` uncaught
(the program aborts). -/
theorem C4_counterexample :
    Config.load_config ConfigSource.malformed = Except.error "JSONDecodeError" := rfl

/-- C4 (amended): a MISSING configuration file is recovered as the empty
configuration, and on the empty configuration every per-key lookup yields
its hardcoded default; a valid file parses as-is; a MALFORMED file raises
instead of being recovered. -/
theorem C4_amended :
    Config.load_config ConfigSource.missing = Except.ok [] ∧
    (∀ d, Config.load_config (ConfigSource.valid d) = Except.ok d) ∧
    (∀ (gname key : String) (d : Rat), dictGet (Config.get ⟨[]⟩ gname) key d = d) ∧
    (∃ e, Config.load_config ConfigSource.malformed = Except.error e) :=
  ⟨rfl, fun _ => rfl, fun _ _ _ => rfl, ⟨"JSONDecodeError", rfl⟩⟩

/-- C5: a pair's `check_pass` returns true at most once over any call
sequence; over one game tick the score grows by exactly one per firing pair
(and never shrinks), and score-plus-unscored-pairs never grows, so each
pair contributes at most 1 to the score over its whole lifetime, however
many ticks it lingers. -/
theorem C5_pair_scores_once :
    (∀ (p : WallPair) (rects : List Rect), (p.runPasses rects).2 ≤ 1) ∧
    (∀ g : Game, g.score ≤ g.update_game_logic.score ∧
      g.update_game_logic.scorePotential ≤ g.scorePotential) ∧
    (∀ g : Game, g.game_status = "game" →
      g.update_game_logic.score =
        g.score + (fireCount (((g.bird.update).check_bounds g.height).1.rect) g.wall_pairs : Int)) :=
  ⟨pair_runPasses_le_one, scorePotential_tick,
   fun g h => by rw [update_game_logic_game g h]⟩

/-- C5 witness: the exact-increment part at `gameEndTick`. -/
theorem C5_witness :
    gameEndTick.update_game_logic.score =
      gameEndTick.score +
        (fireCount (((gameEndTick.bird.update).check_bounds gameEndTick.height).1.rect)
          gameEndTick.wall_pairs : Int) :=
  C5_pair_scores_once.2.2 gameEndTick rfl

/-- C6: a wall's `check_pass` fires exactly when the wall is not yet passed
and its right edge is strictly left of the rect's left edge; firing sets
`passed`, `passed` never reverts, and over any call sequence the check
returns true at most once. -/
theorem C6_wall_pass_once :
    (∀ (w : Wall) (r : Rect),
      ((w.check_pass r).2 = true ↔ (w.passed = false ∧ w.rect.right < r.left))) ∧
    (∀ (w : Wall) (r : Rect),
      (w.check_pass r).1.passed = (w.passed || (w.check_pass r).2)) ∧
    (∀ (w : Wall) (rects : List Rect), (w.runPasses rects).2 ≤ 1) :=
  ⟨Wall.check_pass_snd, Wall.check_pass_fst_passed, wall_runPasses_le_one⟩

/-- C7: a space intent while the game is on the menu (Ended) restarts: state
becomes `'game'`, score 0, no wall pairs, and a fresh bird at the configured
start position with velocity 0. -/
theorem C7_restart (g : Game) (h : g.game_status = "menu") :
    (g.handle_space).game_status = "game" ∧
    (g.handle_space).score = 0 ∧
    (g.handle_space).wall_pairs = [] ∧
    (g.handle_space).bird.speed_y = 0 ∧
    (g.handle_space).bird.x = dictGet (g.config.get "bird_settings") "start_x" 100 ∧
    (g.handle_space).bird.y =
      dictGet (g.config.get "bird_settings") "start_y" ((g.height.fdiv 2 : Int) : Rat) := by
  have hne : ¬ g.game_status = "game" := by
    rw [h]
    decide
  simp [Game.handle_space, hne, h, Game.restart_game, Bird.init]

/-- C7 witness: restarting from `gameOverMenu`. -/
theorem C7_witness :
    (gameOverMenu.handle_space).game_status = "game" ∧
    (gameOverMenu.handle_space).score = 0 ∧
    (gameOverMenu.handle_space).wall_pairs = [] ∧
    (gameOverMenu.handle_space).bird.speed_y = 0 ∧
    (gameOverMenu.handle_space).bird.x =
      dictGet (gameOverMenu.config.get "bird_settings") "start_x" 100 ∧
    (gameOverMenu.handle_space).bird.y =
      dictGet (gameOverMenu.config.get "bird_settings") "start_y"
        ((gameOverMenu.height.fdiv 2 : Int) : Rat) :=
  C7_restart gameOverMenu rfl

/-- C8: with default gravity 0.4 and a bird starting at velocity 0, five
gravity ticks give velocity 2 and raise y by exactly 6 (exact rational
arithmetic stands in for the source's floats); a jump sets the velocity to
the configured jump impulse (-6) whatever the accumulated velocity was. -/
theorem C8_gravity_scenario :
    (Bird.update^[5] (Bird.init 100 250 emptyConfig)).speed_y = 2 ∧
    (Bird.update^[5] (Bird.init 100 250 emptyConfig)).y = (Bird.init 100 250 emptyConfig).y + 6 ∧
    (Bird.init 100 250 emptyConfig).y = 250 ∧
    (∀ b : Bird, (b.jump).speed_y = b.jump_strength) ∧
    (Bird.init 100 250 emptyConfig).jump_strength = -6 := by
  refine ⟨?_, ?_, ?_, fun b => rfl, ?_⟩ <;>
    norm_num [Bird.init, Config.get, emptyConfig, dictGet, pyint, Bird.update,
      Function.iterate_succ_apply, Function.iterate_zero_apply]

/-- C9: the claim says `is_offscreen` first becomes true at tick 301.
Counterexample: after 301 ticks the wall spawned at x = 600 sits at x = -2,
its right edge at 98, still on screen. -/
theorem C9_counterexample :
    (Wall.update^[301] wall600).is_offscreen = false ∧
    (Wall.update^[301] wall600).rect.right = 98 := by
  rw [wall600_iterate]
  norm_num [Wall.is_offscreen, Rect.right]

/-- C9 (amended): for the wall spawned at x = 600 (speed 2, width 100),
`is_offscreen` after n ticks holds exactly when n > 350, i.e. it first
becomes true at tick 351 and not before. -/
theorem C9_amended (n : Nat) :
    (Wall.update^[n] wall600).is_offscreen = decide (350 < n) := by
  rw [wall600_iterate]
  simp only [Wall.is_offscreen, Rect.right]
  rw [decide_eq_decide]
  omega

/-- C10: at construction the bird's rect is centered on `(x, y)` (top edge
at `pyint y - height/2`, with pygame's integer halving), but every gravity
tick re-anchors the rect's top edge to `y`, and both bounds clamps keep
`rect.top = pyint y`; concretely the default bird's top edge jumps from 233
to 250 on the first tick, and from then on `y` denotes the top edge. -/
theorem C10_anchor_semantics :
    (∀ (x y : Rat) (cfg : Config),
      (Bird.init x y cfg).rect.y = pyint y - ((Bird.init x y cfg).rect.h).tdiv 2) ∧
    (∀ b : Bird, (b.update).rect.y = pyint ((b.update).y)) ∧
    (∀ (b : Bird) (sh : Int), b.rect.y = pyint b.y →
      ((b.check_bounds sh).1).rect.y = pyint (((b.check_bounds sh).1).y)) ∧
    ((Bird.init 100 250 emptyConfig).rect.y = 233 ∧
      ((Bird.init 100 250 emptyConfig).update).rect.y = 250) := by
  refine ⟨fun x y cfg => rfl, fun b => rfl, ?_, ?_, ?_⟩
  · intro b sh h
    unfold Bird.check_bounds
    split
    · show (0 : Int) = pyint 0
      decide
    · split
      · show sh - b.rect.h = pyint ((sh - b.rect.h : Int) : Rat)
        rw [pyint_intCast]
      · exact h
  · norm_num [Bird.init, Config.get, emptyConfig, dictGet, pyint]
    decide
  · have h1 : Int.tdiv 1252 5 = 250 := by decide
    norm_num [Bird.init, Config.get, emptyConfig, dictGet, pyint, Bird.update, h1]

/-- C10 witness: the clamp-preservation part at `birdAtBottom`. -/
theorem C10_witness :
    birdAtBottom.rect.y = pyint birdAtBottom.y ∧
    ((birdAtBottom.check_bounds 500).1).rect.y =
      pyint (((birdAtBottom.check_bounds 500).1).y) :=
  ⟨by decide, C10_anchor_semantics.2.2.1 birdAtBottom 500 (by decide)⟩
